import Mathlib

/-!
Shallow embedding of `glider/pipelines/planet_downloader.py`
(class `PlanetDownloader`) and verification of its specification.

External collaborators (the Planet SDK catalog/order services, geopandas
and shapely I/O, `datetime.strptime`) are modelled as function parameters;
the control flow and data handling of the repository's own code is
translated directly.
-/

namespace Glider

/-- A Python dictionary value, as far as the metadata records need. -/
inductive PVal : Type
  | pyNone : PVal
  | str : String → PVal
  | num : Int → PVal
deriving DecidableEq, Repr

/-- A Python `dict` with string keys, modelled as an insertion-ordered
association list (Python dicts preserve insertion order and hold at most
one entry per key). -/
abbrev PropMap : Type := List (String × PVal)

/-- Python `d[k] = v`: overwrite in place if the key exists (keeping its
position), otherwise append the new entry at the end. -/
def dictSet (d : PropMap) (k : String) (v : PVal) : PropMap :=
  if d.any (fun p => p.1 = k) then
    d.map (fun p => if p.1 = k then (k, v) else p)
  else
    d ++ [(k, v)]

/-- A scene record returned by the catalog search (`SceneRecord`): an `id`
string, an optional `properties` dict (absent key modelled as `none`), and
a geometry of abstract type `γ`. -/
structure SceneItem (γ : Type) : Type where
  id : String
  properties : Option PropMap
  geometry : γ
deriving DecidableEq, Repr

/-- The `geometry_info` argument of `_load_aoi` / `search` / `download`:
either a path string or an in-memory geometry structure. -/
inductive GeometryInfo (γ : Type) : Type
  | path : String → GeometryInfo γ
  | geom : γ → GeometryInfo γ
deriving DecidableEq, Repr

/-- A parsed calendar date (`datetime.strptime(s, "%Y-%m-%d")` result). -/
structure PDate : Type where
  year : Nat
  month : Nat
  day : Nat
deriving DecidableEq, Repr

/-- A Planet SDK search filter, mirroring the `data_filter` constructors
used by `search`: `and_filter`, `permission_filter`,
`date_range_filter(field, gte=…, lte=…)` (both bounds inclusive) and
`range_filter(field, lte=…)`. -/
inductive DFilter : Type
  | and_filter : List DFilter → DFilter
  | permission_filter : DFilter
  | date_range_filter : String → PDate → PDate → DFilter
  | range_filter : String → ℚ → DFilter

/-- `PlanetDownloader.MAX_ITEMS_PER_ORDER`. -/
def MAX_ITEMS_PER_ORDER : Nat := 500

/-- `PlanetDownloader.POLL_INTERVAL` (not consumed by the orchestration). -/
def POLL_INTERVAL : Nat := 30

/-- `_load_aoi`: if `geometry_info` is a string, read the file, dissolve
to one geometry and convert it (`mapping(gdf.unary_union)` — the external
geopandas/shapely pipeline is the parameter `readUnion`); otherwise return
the argument unchanged. -/
def _load_aoi (readUnion : String → γ) : GeometryInfo γ → γ
  | GeometryInfo.path s => readUnion s
  | GeometryInfo.geom g => g

/-- Python `range(0, stop, step)` for `step ≥ 1`: the indices
`0, step, 2·step, …` strictly below `stop`; there are
`⌈stop / step⌉ = (stop + step - 1) / step` of them. -/
def pyRangeStep (stop step : Nat) : List Nat :=
  List.range' 0 ((stop + step - 1) / step) step

/-- `_chunk_list(lst, chunk_size)`:
`for i in range(0, len(lst), chunk_size): yield lst[i : i + chunk_size]`.
The slice `lst[i : i + chunk_size]` is `(lst.drop i).take chunk_size`. -/
def _chunk_list (lst : List α) (chunk_size : Nat) : List (List α) :=
  (pyRangeStep lst.length chunk_size).map
    (fun i => (lst.drop i).take chunk_size)

/-- Result of `_write_metadata`: the post-call state of the `metadata`
argument (Python passes the list of dicts by reference), the list of
file writes performed (`gdf.to_file` calls), each carrying the feature
records written, and the Python return value. -/
structure WMResult (γ δ : Type) : Type where
  items : List (SceneItem γ)
  writes : List (List (PropMap × δ))
  ret : Option (List (PropMap × δ))
deriving DecidableEq, Repr

/-- One iteration of the record-building loop of `_write_metadata`:
`props = item.get("properties", {})` aliases the item's dict when present
(a fresh `{}` otherwise), `props["id"] = item.get("id")` mutates it, and
the appended record is `{**props, "geometry": shape(item["geometry"])}`.
Returns the (possibly mutated) item together with its `props` dict. -/
def wmStep (item : SceneItem γ) : SceneItem γ × PropMap :=
  match item.properties with
  | some props =>
      let props2 := dictSet props "id" (PVal.str item.id)
      ({ item with properties := some props2 }, props2)
  | none =>
      (item, dictSet [] "id" (PVal.str item.id))

/-- `_write_metadata(metadata)`: build one record per item (mutating the
item's `properties` dict in passing), write all records to a single new
file (`sh` models shapely's `shape`), and return `None`. -/
def _write_metadata (sh : γ → δ) (metadata : List (SceneItem γ)) :
    WMResult γ δ :=
  let pairs := metadata.map wmStep
  { items := pairs.map Prod.fst
    writes := [pairs.map (fun p => (p.2, sh p.1.geometry))]
    ret := none }

/-- `search`: resolve the AOI, parse the dates (`strptime` models
`datetime.strptime(·, "%Y-%m-%d")`), build the composite filter and issue
one catalog search (`catalog` models `self.pl_session.data.search`). -/
def search (readUnion : String → γ) (strptime : String → PDate)
    (catalog : List String → γ → DFilter → List (SceneItem γ))
    (geometry_info : GeometryInfo γ) (start_date end_date : String)
    (item_type : List String) (cloud_cover : ℚ) : List (SceneItem γ) :=
  let aoi := _load_aoi readUnion geometry_info
  let sfilter := DFilter.and_filter
    [ DFilter.permission_filter,
      DFilter.date_range_filter "acquired" (strptime start_date)
        (strptime end_date),
      DFilter.range_filter "cloud_cover" cloud_cover ]
  catalog item_type aoi sfilter

/-- Modelled from the spec: the composite filter of §4.2, the conjunction
of the permission filter, an inclusive date-range filter on `acquired`
with lower bound `start` and upper bound `stop`, and an upper-bound
filter `cloud_cover ≤ threshold`. -/
def specCompositeFilter (start stop : PDate) (threshold : ℚ) : DFilter :=
  DFilter.and_filter
    [ DFilter.permission_filter,
      DFilter.date_range_filter "acquired" start stop,
      DFilter.range_filter "cloud_cover" threshold ]

/-- An observable operation performed by `download` after the search:
a metadata file write, an order creation (`_create_order` with this
chunk's ids, item type and bundle), an `orders.wait` call, or an
`orders.download_order` call. -/
inductive Event (γ δ : Type) : Type
  | writeMetadata : List (PropMap × δ) → Event γ δ
  | createOrder : List String → String → String → Event γ δ
  | waitOrder : String → Event γ δ
  | downloadOrder : String → String → Bool → Bool → Event γ δ
deriving DecidableEq

/-- The body of the triple-nested order loop of `download`, flattened over
the (chunk, item type, bundle) combinations it enumerates; `orderIds k` is
the order id the order service returns on the `k`-th `create_order` call
(ids are threaded from `order['id']` into `wait` and `download_order`). -/
def comboEvents (orderIds : Nat → String) (dir : String)
    (overwrite progress_bar : Bool) (k : Nat) :
    List (List String × String × String) → List (Event γ δ)
  | [] => []
  | (chunk, t, b) :: rest =>
      Event.createOrder chunk t b ::
      Event.waitOrder (orderIds k) ::
      Event.downloadOrder (orderIds k) dir overwrite progress_bar ::
      comboEvents orderIds dir overwrite progress_bar (k + 1) rest

/-- Outcome of a `download` call: the sequence of observable operations it
performed after the search, and the process exit it forced, if any
(`sys.exit(msg)` with a string argument prints `msg` and exits with
status 1; `some (1, msg)` models that, `none` a normal return). -/
structure DownloadRun (γ δ : Type) : Type where
  trace : List (Event γ δ)
  exit : Option (Nat × String)
deriving DecidableEq

/-- The (chunk, item type, bundle) combinations enumerated by the
triple-nested loop of `download`, chunk outermost and bundle innermost. -/
def orderCombos (item_ids item_types bundles : List String) :
    List (List String × String × String) :=
  (_chunk_list item_ids MAX_ITEMS_PER_ORDER).flatMap
    (fun chunk => item_types.flatMap
      (fun t => bundles.map (fun b => (chunk, t, b))))

/-- `download`: search, hard-stop on an empty result, extract the ids,
write the metadata once, then for each chunk (outermost), item type, and
bundle (innermost) create an order, wait for it and download it. The
`threads` parameter is accepted but never read by the body. -/
def download (readUnion : String → γ) (strptime : String → PDate)
    (catalog : List String → γ → DFilter → List (SceneItem γ))
    (orderIds : Nat → String) (sh : γ → δ) (download_dir : String)
    (geometry_info : GeometryInfo γ) (start_date end_date : String)
    (item_types bundles : List String) (cloud_cover : ℚ)
    (threads : Nat) (overwrite progress_bar : Bool) : DownloadRun γ δ :=
  let items := search readUnion strptime catalog geometry_info
    start_date end_date item_types cloud_cover
  if items.isEmpty then
    { trace := [],
      exit := some (1, "No images found. Make filters more flexible.") }
  else
    let item_ids := items.map SceneItem.id
    let wm := _write_metadata sh items
    { trace := wm.writes.map Event.writeMetadata ++
        comboEvents orderIds download_dir overwrite progress_bar 0
          (orderCombos item_ids item_types bundles),
      exit := none }

/-- Whether an event is an order creation. -/
def isCreateEv : Event γ δ → Bool
  | Event.createOrder _ _ _ => true
  | _ => false

/-- Whether an event is a metadata file write. -/
def isWriteMetaEv : Event γ δ → Bool
  | Event.writeMetadata _ => true
  | _ => false

/-- The (ids, item type, bundle) arguments of the order creations of a
trace, in order. -/
def createArgsOf (tr : List (Event γ δ)) :
    List (List String × String × String) :=
  tr.filterMap (fun e => match e with
    | Event.createOrder ids t b => some (ids, t, b)
    | _ => none)

/-! ### Concrete collaborator fixtures used to evaluate the model -/

/-- Trivial AOI file reader over the unit geometry type. -/
def unitRead : String → Unit := fun _ => ()

/-- Trivial `shape` conversion over the unit geometry type. -/
def unitShape : Unit → Unit := fun _ => ()

/-- A date parser returning a fixed date. -/
def fixedDate : String → PDate := fun _ => ⟨2020, 1, 1⟩

/-- An order service that answers every creation with the same id. -/
def constOrderIds : Nat → String := fun _ => "order-1"

/-- A catalog that matches nothing. -/
def emptyCatalog : List String → Unit → DFilter → List (SceneItem Unit) :=
  fun _ _ _ => []

/-- A catalog that returns two scene records. -/
def twoSceneCatalog : List String → Unit → DFilter → List (SceneItem Unit) :=
  fun _ _ _ =>
    [{ id := "a", properties := none, geometry := () },
     { id := "b", properties := some [], geometry := () }]

/-! ### Lemmas about `_chunk_list` -/

theorem chunkList_nil (c : Nat) : _chunk_list ([] : List α) c = [] := by
  have h : (0 + c - 1) / c = 0 := by
    cases c with
    | zero => rfl
    | succ n => exact Nat.div_eq_of_lt (by omega)
  unfold _chunk_list pyRangeStep
  rw [List.length_nil, h]
  rfl

theorem chunkList_cons (c : Nat) (hc : c ≠ 0) (l : List α) (hl : l ≠ []) :
    _chunk_list l c = l.take c :: _chunk_list (l.drop c) c := by
  have hc' : 0 < c := Nat.pos_of_ne_zero hc
  have hn : 0 < l.length := List.length_pos.mpr hl
  unfold _chunk_list pyRangeStep
  rw [List.length_drop]
  have h1 : l.length + c - 1 = l.length - 1 + c := by omega
  have h3 : (l.length - c + c - 1) / c = (l.length - 1) / c := by
    rcases Nat.le_total c l.length with h | h
    · have e : l.length - c + c - 1 = l.length - 1 := by omega
      rw [e]
    · have e0 : l.length - c = 0 := by omega
      rw [e0]
      have e1 : 0 + c - 1 = c - 1 := by omega
      rw [e1, Nat.div_eq_of_lt (by omega), Nat.div_eq_of_lt (by omega)]
  rw [h1, Nat.add_div_right _ hc', h3, List.range'_succ, List.map_cons]
  have h4 : List.range' (0 + c) ((l.length - 1) / c) c
      = (List.range' 0 ((l.length - 1) / c) c).map (fun x => c + x) := by
    rw [List.map_add_range', Nat.add_zero, Nat.zero_add]
  rw [h4, List.map_map]
  congr 1
  apply List.map_congr_left
  intro i _
  simp only [Function.comp_apply]
  rw [List.drop_drop]

theorem chunkList_eq_nil_iff (c : Nat) (hc : c ≠ 0) (l : List α) :
    _chunk_list l c = [] ↔ l = [] := by
  constructor
  · intro h
    by_contra hne
    rw [chunkList_cons c hc l hne] at h
    exact List.cons_ne_nil _ _ h
  · intro h
    rw [h]
    exact chunkList_nil c

theorem chunkList_props (c : Nat) (hc : c ≠ 0) :
    ∀ (n : Nat) (l : List α), l.length ≤ n →
      (_chunk_list l c).flatten = l ∧
      (∀ ch ∈ _chunk_list l c, ch.length ≤ c ∧ ch ≠ []) ∧
      (∀ ch ∈ (_chunk_list l c).dropLast, ch.length = c) := by
  have hc' : 0 < c := Nat.pos_of_ne_zero hc
  intro n
  induction n with
  | zero =>
      intro l hl
      have h0 : l = [] := List.length_eq_zero.mp (Nat.le_zero.mp hl)
      subst h0
      simp [chunkList_nil]
  | succ n ih =>
      intro l hl
      rcases eq_or_ne l [] with rfl | hne
      · simp [chunkList_nil]
      · have hn : 0 < l.length := List.length_pos.mpr hne
        have hdl : (l.drop c).length ≤ n := by
          rw [List.length_drop]
          omega
        obtain ⟨ihf, ihm, ihd⟩ := ih (l.drop c) hdl
        rw [chunkList_cons c hc l hne]
        refine ⟨?_, ?_, ?_⟩
        · rw [List.flatten_cons, ihf, List.take_append_drop]
        · intro ch hch
          rcases List.mem_cons.mp hch with rfl | h
          · refine ⟨?_, ?_⟩
            · rw [List.length_take]
              exact min_le_left _ _
            · intro habs
              rcases List.take_eq_nil_iff.mp habs with h0 | h0
              · exact hc h0
              · exact hne h0
          · exact ihm ch h
        · rcases eq_or_ne (l.drop c) [] with hd | hd
          · rw [(chunkList_eq_nil_iff c hc _).mpr hd]
            simp
          · have hrest : _chunk_list (l.drop c) c ≠ [] := by
              rw [Ne, chunkList_eq_nil_iff c hc]
              exact hd
            rw [List.dropLast_cons_of_ne_nil hrest]
            intro ch hch
            rcases List.mem_cons.mp hch with rfl | h
            · have hlt : c < l.length := by
                by_contra hcon
                push_neg at hcon
                exact hd (List.drop_eq_nil_of_le hcon)
              rw [List.length_take]
              exact min_eq_left (Nat.le_of_lt hlt)
            · exact ihd ch h

theorem chunkList_length (l : List α) (c : Nat) :
    (_chunk_list l c).length = (l.length + c - 1) / c := by
  unfold _chunk_list pyRangeStep
  rw [List.length_map, List.length_range']

/-! ### Lemmas about the order loop and the download trace -/

theorem createArgsOf_comboEvents (orderIds : Nat → String) (dir : String)
    (ov pb : Bool) (combos : List (List String × String × String)) :
    ∀ k : Nat,
      createArgsOf (γ := γ) (δ := δ)
        (comboEvents orderIds dir ov pb k combos) = combos := by
  induction combos with
  | nil => intro k; rfl
  | cons p rest ih =>
      intro k
      obtain ⟨chunk, t, b⟩ := p
      simp only [comboEvents, createArgsOf, List.filterMap_cons]
      exact congrArg _ (ih (k + 1))

theorem comboEvents_countP_write (orderIds : Nat → String) (dir : String)
    (ov pb : Bool) (combos : List (List String × String × String)) :
    ∀ k : Nat,
      (comboEvents (γ := γ) (δ := δ) orderIds dir ov pb k combos).countP
        isWriteMetaEv = 0 := by
  induction combos with
  | nil => intro k; rfl
  | cons p rest ih =>
      intro k
      obtain ⟨chunk, t, b⟩ := p
      simp only [comboEvents, List.countP_cons, isWriteMetaEv, ih (k + 1)]
      rfl

theorem comboEvents_enumFrom (orderIds : Nat → String) (dir : String)
    (ov pb : Bool) (combos : List (List String × String × String)) :
    ∀ k : Nat,
      comboEvents (γ := γ) (δ := δ) orderIds dir ov pb k combos =
        (List.enumFrom k combos).flatMap
          (fun p => [Event.createOrder p.2.1 p.2.2.1 p.2.2.2,
                     Event.waitOrder (orderIds p.1),
                     Event.downloadOrder (orderIds p.1) dir ov pb]) := by
  induction combos with
  | nil => intro k; rfl
  | cons p rest ih =>
      intro k
      obtain ⟨chunk, t, b⟩ := p
      simp only [comboEvents, List.enumFrom, List.flatMap_cons, ih (k + 1)]
      rfl

theorem flatMap_length_const (l : List α) (f : α → List β) (m : Nat)
    (h : ∀ a ∈ l, (f a).length = m) :
    (l.flatMap f).length = l.length * m := by
  induction l with
  | nil => simp
  | cons a rest ih =>
      rw [List.flatMap_cons, List.length_append, List.length_cons,
        h a (List.mem_cons_self a rest),
        ih (fun x hx => h x (List.mem_cons_of_mem a hx))]
      ring

theorem orderCombos_length (item_ids item_types bundles : List String) :
    (orderCombos item_ids item_types bundles).length =
      ((item_ids.length + MAX_ITEMS_PER_ORDER - 1) / MAX_ITEMS_PER_ORDER) *
        item_types.length * bundles.length := by
  unfold orderCombos
  rw [flatMap_length_const _ _ (item_types.length * bundles.length), chunkList_length,
    Nat.mul_assoc]
  intro chunk _
  rw [flatMap_length_const _ _ bundles.length]
  intro t _
  rw [List.length_map]

/-- Shape of a `download` run whose search came back non-empty: no forced
exit, and a trace of one metadata write followed by the order loop. -/
theorem download_run_of_ne (readUnion : String → γ) (strptime : String → PDate)
    (catalog : List String → γ → DFilter → List (SceneItem γ))
    (orderIds : Nat → String) (sh : γ → δ) (download_dir : String)
    (geometry_info : GeometryInfo γ) (start_date end_date : String)
    (item_types bundles : List String) (cloud_cover : ℚ)
    (threads : Nat) (overwrite progress_bar : Bool)
    (h : search readUnion strptime catalog geometry_info start_date end_date
      item_types cloud_cover ≠ []) :
    download readUnion strptime catalog orderIds sh download_dir geometry_info
        start_date end_date item_types bundles cloud_cover threads overwrite
        progress_bar =
      { trace := Event.writeMetadata
          (((search readUnion strptime catalog geometry_info start_date
              end_date item_types cloud_cover).map wmStep).map
            (fun p => (p.2, sh p.1.geometry))) ::
          comboEvents orderIds download_dir overwrite progress_bar 0
            (orderCombos
              ((search readUnion strptime catalog geometry_info start_date
                end_date item_types cloud_cover).map SceneItem.id)
              item_types bundles),
        exit := none } := by
  simp only [download, List.isEmpty_eq_false.mpr h, Bool.false_eq_true,
    if_false, _write_metadata, List.map_cons, List.map_nil,
    List.singleton_append]

/-! ### Lemmas about `_write_metadata` -/

theorem write_metadata_items (sh : γ → δ) (metadata : List (SceneItem γ)) :
    (_write_metadata sh metadata).items =
      metadata.map (fun it =>
        { it with properties :=
            (it.properties.map
              (fun props => dictSet props "id" (PVal.str it.id))) }) := by
  simp only [_write_metadata, List.map_map]
  apply List.map_congr_left
  intro it _
  rcases it with ⟨i, props, g⟩
  cases props with
  | none => rfl
  | some p => rfl

/-! ### Claim theorems -/

/-- C1: for every list `items` and every `chunk_size C ≥ 1`, the chunks
produced by `_chunk_list(items, C)` concatenate back to `items` in the
original order, every chunk has length at most `C`, and every chunk other
than the last has length exactly `C` (so only the last may fall short). -/
theorem chunk_list_correct (items : List α) (C : Nat) (hC : 1 ≤ C) :
    (_chunk_list items C).flatten = items ∧
    (∀ ch ∈ _chunk_list items C, ch.length ≤ C) ∧
    (∀ ch ∈ (_chunk_list items C).dropLast, ch.length = C) := by
  obtain ⟨h1, h2, h3⟩ :=
    chunkList_props C (by omega) items.length items le_rfl
  exact ⟨h1, fun ch hch => (h2 ch hch).1, h3⟩

/-- Witness for C1 at `items = [1,2,3,4,5]`, `C = 2`. -/
theorem chunk_list_correct_witness :
    1 ≤ 2 ∧
    ((_chunk_list [1, 2, 3, 4, 5] 2).flatten = [1, 2, 3, 4, 5] ∧
      (∀ ch ∈ _chunk_list [1, 2, 3, 4, 5] 2, ch.length ≤ 2) ∧
      (∀ ch ∈ (_chunk_list [1, 2, 3, 4, 5] 2).dropLast, ch.length = 2)) :=
  ⟨by decide, chunk_list_correct [1, 2, 3, 4, 5] 2 (by decide)⟩

/-- C5 counterexample: `_write_metadata` does mutate the input records.
For a record whose `properties` dict is `{"cloud": 1}`, the dict aliased
by `props = item.get("properties", {})` receives `props["id"] = item.get("id")`,
so after the call the record's property mapping has gained an `"id"` key
and is no longer `{"cloud": 1}`. -/
theorem write_metadata_mutates_counterexample :
    ((_write_metadata (fun _ : Unit => ())
        [{ id := "A", properties := some [("cloud", PVal.num 1)],
           geometry := () }]).items.map SceneItem.properties) ≠
      [some [("cloud", PVal.num 1)]] := by decide

/-- C5 (amended): `_write_metadata` returns `None` (not the records),
writes exactly one file per call, and leaves every record's `id` and
geometry unchanged; however it mutates each record's property mapping
(when the record has one) by inserting the record's id under key `"id"`. -/
theorem write_metadata_effects (sh : γ → δ) (metadata : List (SceneItem γ)) :
    (_write_metadata sh metadata).ret = none ∧
    (_write_metadata sh metadata).writes.length = 1 ∧
    (_write_metadata sh metadata).items.map SceneItem.id =
      metadata.map SceneItem.id ∧
    (_write_metadata sh metadata).items.map SceneItem.geometry =
      metadata.map SceneItem.geometry ∧
    (_write_metadata sh metadata).items =
      metadata.map (fun it =>
        { it with properties :=
            (it.properties.map
              (fun props => dictSet props "id" (PVal.str it.id))) }) := by
  refine ⟨rfl, rfl, ?_, ?_, write_metadata_items sh metadata⟩
  · rw [write_metadata_items, List.map_map]
    apply List.map_congr_left
    intro it _
    rfl
  · rw [write_metadata_items, List.map_map]
    apply List.map_congr_left
    intro it _
    rfl

/-- C6: called on an empty record list, the metadata persister still
performs exactly one file write, carrying zero features; there is no
special-case skip and no failure path in the function itself. -/
theorem write_metadata_empty (γ δ : Type) (sh : γ → δ) :
    _write_metadata sh ([] : List (SceneItem γ)) =
      { items := [], writes := [[]], ret := none } := rfl

/-- C7: the filter `search` hands to the catalog service is exactly the
conjunction of the permission filter, the inclusive date-range filter on
`acquired` with `gte` the parsed start date and `lte` the parsed end
date, and the `cloud_cover ≤ threshold` range filter. -/
theorem search_filter_is_spec_composite (γ : Type) (readUnion : String → γ)
    (strptime : String → PDate)
    (catalog : List String → γ → DFilter → List (SceneItem γ))
    (geometry_info : GeometryInfo γ) (start_date end_date : String)
    (item_type : List String) (cloud_cover : ℚ) :
    search readUnion strptime catalog geometry_info start_date end_date
        item_type cloud_cover =
      catalog item_type (_load_aoi readUnion geometry_info)
        (specCompositeFilter (strptime start_date) (strptime end_date)
          cloud_cover) := rfl

/-- C8: `_load_aoi` is the identity on an input that is already a geometry
structure, hence resolving an already-resolved geometry is idempotent. -/
theorem load_aoi_identity (γ : Type) (readUnion : String → γ) :
    (∀ g : γ, _load_aoi readUnion (GeometryInfo.geom g) = g) ∧
    (∀ gi : GeometryInfo γ,
      _load_aoi readUnion (GeometryInfo.geom (_load_aoi readUnion gi)) =
        _load_aoi readUnion gi) :=
  ⟨fun _ => rfl, fun _ => rfl⟩

/-- C9: the `threads` parameter is not consumed by `download`; two calls
differing only in `threads` perform the identical run (same trace of
metadata, order-creation, wait and download operations, same exit). -/
theorem download_ignores_threads (γ δ : Type) (readUnion : String → γ)
    (strptime : String → PDate)
    (catalog : List String → γ → DFilter → List (SceneItem γ))
    (orderIds : Nat → String) (sh : γ → δ) (download_dir : String)
    (geometry_info : GeometryInfo γ) (start_date end_date : String)
    (item_types bundles : List String) (cloud_cover : ℚ)
    (threads₁ threads₂ : Nat) (overwrite progress_bar : Bool) :
    download readUnion strptime catalog orderIds sh download_dir
        geometry_info start_date end_date item_types bundles cloud_cover
        threads₁ overwrite progress_bar =
      download readUnion strptime catalog orderIds sh download_dir
        geometry_info start_date end_date item_types bundles cloud_cover
        threads₂ overwrite progress_bar := rfl

/-- C3: if the catalog search returns zero records, `download` terminates
the process with a non-zero status and the user-facing message before any
order-creation call: its trace is empty, so no metadata write, no order,
no wait and no download happens. -/
theorem download_empty_exit (γ δ : Type) (readUnion : String → γ)
    (strptime : String → PDate)
    (catalog : List String → γ → DFilter → List (SceneItem γ))
    (orderIds : Nat → String) (sh : γ → δ) (download_dir : String)
    (geometry_info : GeometryInfo γ) (start_date end_date : String)
    (item_types bundles : List String) (cloud_cover : ℚ)
    (threads : Nat) (overwrite progress_bar : Bool)
    (h : search readUnion strptime catalog geometry_info start_date end_date
      item_types cloud_cover = []) :
    (download readUnion strptime catalog orderIds sh download_dir
        geometry_info start_date end_date item_types bundles cloud_cover
        threads overwrite progress_bar).trace = [] ∧
    (download readUnion strptime catalog orderIds sh download_dir
        geometry_info start_date end_date item_types bundles cloud_cover
        threads overwrite progress_bar).exit =
      some (1, "No images found. Make filters more flexible.") ∧
    (∀ code msg,
      (download readUnion strptime catalog orderIds sh download_dir
          geometry_info start_date end_date item_types bundles cloud_cover
          threads overwrite progress_bar).exit = some (code, msg) →
      code ≠ 0) := by
  have hD : download readUnion strptime catalog orderIds sh download_dir
      geometry_info start_date end_date item_types bundles cloud_cover
      threads overwrite progress_bar =
      { trace := [],
        exit := some (1, "No images found. Make filters more flexible.") } := by
    simp only [download, h, List.isEmpty_nil, if_true]
  rw [hD]
  refine ⟨rfl, rfl, ?_⟩
  intro code msg heq
  simp only [Option.some.injEq, Prod.mk.injEq] at heq
  obtain ⟨h1, -⟩ := heq
  omega

/-- Witness for C3: a catalog returning zero records. -/
theorem download_empty_exit_witness :
    search unitRead fixedDate emptyCatalog (GeometryInfo.geom ())
        "2020-01-01" "2020-02-01" ["PSScene"] 0 = [] ∧
    ((download unitRead fixedDate emptyCatalog constOrderIds unitShape "d"
        (GeometryInfo.geom ()) "2020-01-01" "2020-02-01" ["PSScene"]
        ["analytic_udm2"] 0 4 false true).trace = [] ∧
      (download unitRead fixedDate emptyCatalog constOrderIds unitShape "d"
        (GeometryInfo.geom ()) "2020-01-01" "2020-02-01" ["PSScene"]
        ["analytic_udm2"] 0 4 false true).exit =
        some (1, "No images found. Make filters more flexible.") ∧
      (∀ code msg,
        (download unitRead fixedDate emptyCatalog constOrderIds unitShape "d"
          (GeometryInfo.geom ()) "2020-01-01" "2020-02-01" ["PSScene"]
          ["analytic_udm2"] 0 4 false true).exit = some (code, msg) →
        code ≠ 0)) :=
  ⟨rfl, download_empty_exit Unit Unit unitRead fixedDate emptyCatalog
    constOrderIds unitShape "d" (GeometryInfo.geom ()) "2020-01-01"
    "2020-02-01" ["PSScene"] ["analytic_udm2"] 0 4 false true rfl⟩

/-- C4: in a run whose search came back non-empty, the metadata write
happens exactly once, and every prefix of the trace that already contains
an order creation already contains that one metadata write — the write
strictly precedes the first order. -/
theorem metadata_once_before_orders (γ δ : Type) (readUnion : String → γ)
    (strptime : String → PDate)
    (catalog : List String → γ → DFilter → List (SceneItem γ))
    (orderIds : Nat → String) (sh : γ → δ) (download_dir : String)
    (geometry_info : GeometryInfo γ) (start_date end_date : String)
    (item_types bundles : List String) (cloud_cover : ℚ)
    (threads : Nat) (overwrite progress_bar : Bool)
    (h : search readUnion strptime catalog geometry_info start_date end_date
      item_types cloud_cover ≠ []) :
    (download readUnion strptime catalog orderIds sh download_dir
        geometry_info start_date end_date item_types bundles cloud_cover
        threads overwrite progress_bar).trace.countP isWriteMetaEv = 1 ∧
    (∀ n : Nat,
      0 < ((download readUnion strptime catalog orderIds sh download_dir
          geometry_info start_date end_date item_types bundles cloud_cover
          threads overwrite progress_bar).trace.take n).countP isCreateEv →
      ((download readUnion strptime catalog orderIds sh download_dir
          geometry_info start_date end_date item_types bundles cloud_cover
          threads overwrite progress_bar).trace.take n).countP
        isWriteMetaEv = 1) := by
  have htr : (download readUnion strptime catalog orderIds sh download_dir
      geometry_info start_date end_date item_types bundles cloud_cover
      threads overwrite progress_bar).trace =
      Event.writeMetadata
        (((search readUnion strptime catalog geometry_info start_date
            end_date item_types cloud_cover).map wmStep).map
          (fun p => (p.2, sh p.1.geometry))) ::
        comboEvents orderIds download_dir overwrite progress_bar 0
          (orderCombos
            ((search readUnion strptime catalog geometry_info start_date
              end_date item_types cloud_cover).map SceneItem.id)
            item_types bundles) := by
    rw [download_run_of_ne readUnion strptime catalog orderIds sh
      download_dir geometry_info start_date end_date item_types bundles
      cloud_cover threads overwrite progress_bar h]
  have hb := comboEvents_countP_write (γ := γ) (δ := δ) orderIds
    download_dir overwrite progress_bar
    (orderCombos
      ((search readUnion strptime catalog geometry_info start_date
        end_date item_types cloud_cover).map SceneItem.id)
      item_types bundles) 0
  constructor
  · rw [htr, List.countP_cons, hb]
    rfl
  · intro n hn
    cases n with
    | zero => simp at hn
    | succ m =>
        rw [htr, List.take_succ_cons, List.countP_cons]
        have hle := List.Sublist.countP_le isWriteMetaEv
          (List.take_sublist m
            (comboEvents (γ := γ) (δ := δ) orderIds download_dir overwrite
              progress_bar 0
              (orderCombos
                ((search readUnion strptime catalog geometry_info start_date
                  end_date item_types cloud_cover).map SceneItem.id)
                item_types bundles)))
        rw [hb] at hle
        simp only [isWriteMetaEv, if_true]
        omega

/-- Witness for C4: a search returning two records. -/
theorem metadata_once_before_orders_witness :
    search unitRead fixedDate twoSceneCatalog (GeometryInfo.geom ())
        "2020-01-01" "2020-02-01" ["T1", "T2"] 0 ≠ [] ∧
    ((download unitRead fixedDate twoSceneCatalog constOrderIds unitShape "d"
        (GeometryInfo.geom ()) "2020-01-01" "2020-02-01" ["T1", "T2"]
        ["B1"] 0 4 false true).trace.countP isWriteMetaEv = 1 ∧
      (∀ n : Nat,
        0 < ((download unitRead fixedDate twoSceneCatalog constOrderIds
            unitShape "d" (GeometryInfo.geom ()) "2020-01-01" "2020-02-01"
            ["T1", "T2"] ["B1"] 0 4 false true).trace.take n).countP
          isCreateEv →
        ((download unitRead fixedDate twoSceneCatalog constOrderIds
            unitShape "d" (GeometryInfo.geom ()) "2020-01-01" "2020-02-01"
            ["T1", "T2"] ["B1"] 0 4 false true).trace.take n).countP
          isWriteMetaEv = 1)) :=
  ⟨by decide, metadata_once_before_orders Unit Unit unitRead fixedDate
    twoSceneCatalog constOrderIds unitShape "d" (GeometryInfo.geom ())
    "2020-01-01" "2020-02-01" ["T1", "T2"] ["B1"] 0 4 false true
    (by decide)⟩

/-- C2: after a non-empty search of `N` records, `download` creates exactly
`⌈N/500⌉ · T · B` orders (`(N + 500 - 1) / 500` in natural division, with
500 = `MAX_ITEMS_PER_ORDER`), the order-creation arguments enumerate the
chunks outermost, then the item types, then the bundles innermost, each
order carrying exactly its chunk's identifiers; and the trace is one
metadata write followed by consecutive `create, wait, download` blocks,
one block per combination, so each combination completes its submit, wait
and download before the next combination begins. -/
theorem download_order_structure (γ δ : Type) (readUnion : String → γ)
    (strptime : String → PDate)
    (catalog : List String → γ → DFilter → List (SceneItem γ))
    (orderIds : Nat → String) (sh : γ → δ) (download_dir : String)
    (geometry_info : GeometryInfo γ) (start_date end_date : String)
    (item_types bundles : List String) (cloud_cover : ℚ)
    (threads : Nat) (overwrite progress_bar : Bool)
    (h : search readUnion strptime catalog geometry_info start_date end_date
      item_types cloud_cover ≠ []) :
    (createArgsOf (download readUnion strptime catalog orderIds sh
        download_dir geometry_info start_date end_date item_types bundles
        cloud_cover threads overwrite progress_bar).trace).length =
      (((search readUnion strptime catalog geometry_info start_date end_date
          item_types cloud_cover).length + MAX_ITEMS_PER_ORDER - 1) /
        MAX_ITEMS_PER_ORDER) * item_types.length * bundles.length ∧
    createArgsOf (download readUnion strptime catalog orderIds sh
        download_dir geometry_info start_date end_date item_types bundles
        cloud_cover threads overwrite progress_bar).trace =
      (_chunk_list
          ((search readUnion strptime catalog geometry_info start_date
            end_date item_types cloud_cover).map SceneItem.id)
          MAX_ITEMS_PER_ORDER).flatMap
        (fun chunk => item_types.flatMap
          (fun t => bundles.map (fun b => (chunk, t, b)))) ∧
    (∃ R, (download readUnion strptime catalog orderIds sh download_dir
        geometry_info start_date end_date item_types bundles cloud_cover
        threads overwrite progress_bar).trace =
      Event.writeMetadata R ::
        (List.enumFrom 0
          (orderCombos
            ((search readUnion strptime catalog geometry_info start_date
              end_date item_types cloud_cover).map SceneItem.id)
            item_types bundles)).flatMap
          (fun p => [Event.createOrder p.2.1 p.2.2.1 p.2.2.2,
                     Event.waitOrder (orderIds p.1),
                     Event.downloadOrder (orderIds p.1) download_dir
                       overwrite progress_bar])) := by
  have htr : (download readUnion strptime catalog orderIds sh download_dir
      geometry_info start_date end_date item_types bundles cloud_cover
      threads overwrite progress_bar).trace =
      Event.writeMetadata
        (((search readUnion strptime catalog geometry_info start_date
            end_date item_types cloud_cover).map wmStep).map
          (fun p => (p.2, sh p.1.geometry))) ::
        comboEvents orderIds download_dir overwrite progress_bar 0
          (orderCombos
            ((search readUnion strptime catalog geometry_info start_date
              end_date item_types cloud_cover).map SceneItem.id)
            item_types bundles) := by
    rw [download_run_of_ne readUnion strptime catalog orderIds sh
      download_dir geometry_info start_date end_date item_types bundles
      cloud_cover threads overwrite progress_bar h]
  have hargs : createArgsOf (download readUnion strptime catalog orderIds sh
      download_dir geometry_info start_date end_date item_types bundles
      cloud_cover threads overwrite progress_bar).trace =
      orderCombos
        ((search readUnion strptime catalog geometry_info start_date
          end_date item_types cloud_cover).map SceneItem.id)
        item_types bundles := by
    rw [htr]
    show createArgsOf
        (comboEvents orderIds download_dir overwrite progress_bar 0
          (orderCombos
            ((search readUnion strptime catalog geometry_info start_date
              end_date item_types cloud_cover).map SceneItem.id)
            item_types bundles)) = _
    exact createArgsOf_comboEvents orderIds download_dir overwrite
      progress_bar _ 0
  refine ⟨?_, ?_, ?_⟩
  · rw [hargs, orderCombos_length, List.length_map]
  · exact hargs
  · refine ⟨((search readUnion strptime catalog geometry_info start_date
        end_date item_types cloud_cover).map wmStep).map
      (fun p => (p.2, sh p.1.geometry)), ?_⟩
    rw [htr, comboEvents_enumFrom orderIds download_dir overwrite
      progress_bar _ 0]

/-- Witness for C2: two records, two item types, one bundle — four orders
of one chunk each. -/
theorem download_order_structure_witness :
    search unitRead fixedDate twoSceneCatalog (GeometryInfo.geom ())
        "2020-01-01" "2020-02-01" ["T1", "T2"] 0 ≠ [] ∧
    ((createArgsOf (download unitRead fixedDate twoSceneCatalog
        constOrderIds unitShape "d" (GeometryInfo.geom ()) "2020-01-01"
        "2020-02-01" ["T1", "T2"] ["B1"] 0 4 false true).trace).length =
      (((search unitRead fixedDate twoSceneCatalog (GeometryInfo.geom ())
          "2020-01-01" "2020-02-01" ["T1", "T2"] 0).length +
          MAX_ITEMS_PER_ORDER - 1) / MAX_ITEMS_PER_ORDER) *
        (["T1", "T2"] : List String).length *
        (["B1"] : List String).length ∧
      createArgsOf (download unitRead fixedDate twoSceneCatalog
        constOrderIds unitShape "d" (GeometryInfo.geom ()) "2020-01-01"
        "2020-02-01" ["T1", "T2"] ["B1"] 0 4 false true).trace =
        (_chunk_list
            ((search unitRead fixedDate twoSceneCatalog
              (GeometryInfo.geom ()) "2020-01-01" "2020-02-01" ["T1", "T2"]
              0).map SceneItem.id)
            MAX_ITEMS_PER_ORDER).flatMap
          (fun chunk => (["T1", "T2"] : List String).flatMap
            (fun t => (["B1"] : List String).map (fun b => (chunk, t, b)))) ∧
      (∃ R, (download unitRead fixedDate twoSceneCatalog constOrderIds
          unitShape "d" (GeometryInfo.geom ()) "2020-01-01" "2020-02-01"
          ["T1", "T2"] ["B1"] 0 4 false true).trace =
        Event.writeMetadata R ::
          (List.enumFrom 0
            (orderCombos
              ((search unitRead fixedDate twoSceneCatalog
                (GeometryInfo.geom ()) "2020-01-01" "2020-02-01"
                ["T1", "T2"] 0).map SceneItem.id)
              ["T1", "T2"] ["B1"])).flatMap
            (fun p => [Event.createOrder p.2.1 p.2.2.1 p.2.2.2,
                       Event.waitOrder (constOrderIds p.1),
                       Event.downloadOrder (constOrderIds p.1) "d"
                         false true]))) :=
  ⟨by decide, download_order_structure Unit Unit unitRead fixedDate
    twoSceneCatalog constOrderIds unitShape "d" (GeometryInfo.geom ())
    "2020-01-01" "2020-02-01" ["T1", "T2"] ["B1"] 0 4 false true
    (by decide)⟩

/-- C10: `_chunk_list` with `chunk_size ≥ 1` never yields an empty chunk,
and consequently every order-creation performed by `download` after a
non-empty search carries at least one scene identifier. -/
theorem chunks_and_orders_nonempty :
    (∀ (α : Type) (l : List α) (C : Nat), 1 ≤ C →
      ∀ ch ∈ _chunk_list l C, ch ≠ []) ∧
    (∀ (γ δ : Type) (readUnion : String → γ) (strptime : String → PDate)
        (catalog : List String → γ → DFilter → List (SceneItem γ))
        (orderIds : Nat → String) (sh : γ → δ) (download_dir : String)
        (geometry_info : GeometryInfo γ) (start_date end_date : String)
        (item_types bundles : List String) (cloud_cover : ℚ)
        (threads : Nat) (overwrite progress_bar : Bool),
      search readUnion strptime catalog geometry_info start_date end_date
          item_types cloud_cover ≠ [] →
      ∀ ids t b,
        Event.createOrder ids t b ∈
          (download readUnion strptime catalog orderIds sh download_dir
            geometry_info start_date end_date item_types bundles cloud_cover
            threads overwrite progress_bar).trace →
        ids ≠ []) := by
  have hpart1 : ∀ (α : Type) (l : List α) (C : Nat), 1 ≤ C →
      ∀ ch ∈ _chunk_list l C, ch ≠ [] := by
    intro α l C hC ch hch
    exact ((chunkList_props C (by omega) l.length l le_rfl).2.1 ch hch).2
  refine ⟨hpart1, ?_⟩
  intro γ δ readUnion strptime catalog orderIds sh download_dir
    geometry_info start_date end_date item_types bundles cloud_cover
    threads overwrite progress_bar h ids t b hmem
  have htr : (download readUnion strptime catalog orderIds sh download_dir
      geometry_info start_date end_date item_types bundles cloud_cover
      threads overwrite progress_bar).trace =
      Event.writeMetadata
        (((search readUnion strptime catalog geometry_info start_date
            end_date item_types cloud_cover).map wmStep).map
          (fun p => (p.2, sh p.1.geometry))) ::
        comboEvents orderIds download_dir overwrite progress_bar 0
          (orderCombos
            ((search readUnion strptime catalog geometry_info start_date
              end_date item_types cloud_cover).map SceneItem.id)
            item_types bundles) := by
    rw [download_run_of_ne readUnion strptime catalog orderIds sh
      download_dir geometry_info start_date end_date item_types bundles
      cloud_cover threads overwrite progress_bar h]
  rw [htr] at hmem
  rcases List.mem_cons.mp hmem with heq | hmem2
  · exact Event.noConfusion heq
  · have hin : (ids, t, b) ∈ createArgsOf (γ := γ) (δ := δ)
        (comboEvents orderIds download_dir overwrite progress_bar 0
          (orderCombos
            ((search readUnion strptime catalog geometry_info start_date
              end_date item_types cloud_cover).map SceneItem.id)
            item_types bundles)) :=
      List.mem_filterMap.mpr ⟨Event.createOrder ids t b, hmem2, rfl⟩
    rw [createArgsOf_comboEvents orderIds download_dir overwrite
      progress_bar _ 0] at hin
    unfold orderCombos at hin
    rcases List.mem_flatMap.mp hin with ⟨chunk, hchunk, hin2⟩
    rcases List.mem_flatMap.mp hin2 with ⟨t', _, hin3⟩
    rcases List.mem_map.mp hin3 with ⟨b', _, heq2⟩
    injection heq2 with h1 hrest
    subst h1
    exact hpart1 String _ MAX_ITEMS_PER_ORDER (by decide) chunk hchunk

/-- Witness for C10: both parts applied — a concrete chunk of
`_chunk_list [1,2,3] 2` and a concrete order created by `download`. -/
theorem chunks_and_orders_nonempty_witness :
    (1 ≤ 2 ∧ ([3] : List Nat) ≠ []) ∧
    (search unitRead fixedDate twoSceneCatalog (GeometryInfo.geom ())
        "2020-01-01" "2020-02-01" ["T1", "T2"] 0 ≠ [] ∧
      (["a", "b"] : List String) ≠ []) :=
  ⟨⟨by decide, chunks_and_orders_nonempty.1 Nat [1, 2, 3] 2 (by decide) [3]
      (by decide)⟩,
   ⟨by decide, chunks_and_orders_nonempty.2 Unit Unit unitRead fixedDate
      twoSceneCatalog constOrderIds unitShape "d" (GeometryInfo.geom ())
      "2020-01-01" "2020-02-01" ["T1", "T2"] ["B1"] 0 4 false true
      (by decide) ["a", "b"] "T1" "B1" (by decide)⟩⟩

end Glider
